import Mathlib

/-!
Formal model of the SukoonMusicPlayer automation scripts: the directory-based
task queue and worker loop of `ai_worker.py`, and the QA report pipeline of
`qa_agent.py`.

Filenames, file contents and prompts are modelled as `String`s; each queue
directory is the list of filenames it contains; the external collaborators
(the codex agent, the build script, the filesystem read, the language model)
are oracles supplied through an environment record.  A fallible filesystem
read is an `Except` value, matching the fact that `Path.read_text` may raise.
-/

/-- Model of the four queue directories of the task store (`ai_tasks/pending`,
`in_progress`, `done`, `failed` in `ai_worker.py`, lines 13-17), each as the
list of filenames it currently contains. -/
structure Store where
  pending : List String
  in_progress : List String
  done : List String
  failed : List String
  deriving DecidableEq

/-- Oracles for the external collaborators of one worker iteration:
`readTask` models `Path.read_text` (which may raise an I/O error, modelled as
`Except.error`), `implOk` the boolean result of the implementation codex call,
`build` the pair (exit code, combined stdout+stderr) returned by the k-th
build attempt, and `fixOk` the boolean result of the codex fix call made on
the k-th attempt. -/
structure Env where
  readTask : String → Except String String
  implOk : Bool
  build : Nat → Nat × String
  fixOk : Nat → Bool

/-- Predicate for a filename matching the glob pattern `*.md`
(`ai_worker.py`, line 32): the name ends with the characters `.md`. -/
def isMdFile (name : String) : Bool := List.isSuffixOf ".md".data name.data

/-- Boolean lexicographic comparison of filenames, stated on the underlying
character lists; it is definitionally the `≤` order on `String` that Python
string sorting uses. -/
def strLeB (a b : String) : Bool := !decide (b.data < a.data)

/-- Model of `sorted(PENDING_DIR.glob("*.md"))` (`ai_worker.py`, line 32):
the `*.md` entries of the directory, sorted lexicographically by name. -/
def sortedMdFiles (dir : List String) : List String :=
  (dir.filter isMdFile).mergeSort strLeB

/-- Model of `get_next_task_file` (`ai_worker.py`, lines 31-35): the first
element of the name-sorted list of `*.md` files in `pending`, or `none` when
there is no such file. -/
def get_next_task_file (pending : List String) : Option String :=
  match sortedMdFiles pending with
  | [] => none
  | f :: _ => some f

/-- Model of `move_task` (`ai_worker.py`, lines 37-40): rename
`src/name` to `target_dir/name`.  On the directory-listing model this removes
the filename from the source listing and appends the same filename to the
target listing. -/
def move_task (name : String) (src tgt : List String) : List String × List String :=
  (src.erase name, tgt ++ [name])

/-- Model of Python slicing `error_log[-1000:]` (`ai_worker.py`, line 101):
the last 1000 characters of the log, or the whole log when it is shorter. -/
def trimmed_log (error_log : String) : String :=
  String.mk (error_log.data.drop (error_log.data.length - 1000))

/-- The fixed text of the fix prompt preceding the embedded log
(`ai_worker.py`, lines 103-115). -/
def fixPromptHeader : String :=
  "\nAndroid Kotlin project build/deploy failed.\n\nFix ONLY the real compile/runtime/build errors from the log below.\n\nRules:\n- Minimal safe changes\n- Do NOT refactor unrelated code\n- Do NOT break existing features\n- Modify build.gradle ONLY if error explicitly requires dependency/plugin fix\n\nERROR LOG:\n"

/-- The prompt built by `fix_build_with_codex` (`ai_worker.py`, lines 98-118):
the fixed template with the trimmed log interpolated. -/
def fix_prompt (error_log : String) : String :=
  fixPromptHeader ++ trimmed_log error_log ++ "\n"

/-- The implementation prompt of step 1 of the main loop
(`ai_worker.py`, lines 145-156). -/
def implement_prompt (task_content : String) : String :=
  "\nAndroid Kotlin project.\n\nImplement this task:\n" ++ task_content ++
    "\n\nRules:\n- Production-ready code\n- Minimal safe changes\n- Do not break existing features\n- Modify build.gradle ONLY if required\n"

/-- Record of what one pass of the build-and-fix retry loop did: the fix
prompts sent to codex, in order, and how many times the build script ran. -/
structure RunLog where
  fixPrompts : List String
  builds : Nat
  deriving DecidableEq

/-- Outcome of one iteration of `main_loop` (`ai_worker.py`, lines 129-189):
either there was no pending task and the loop sleeps, or a task was processed
to its terminal directory and the loop continues, or an uncaught exception
escaped (there is no try/except in `main_loop`) and the process dies.  Each
outcome carries the resulting state of the task store. -/
inductive IterOutcome where
  | noTask (s : Store)
  | completed (s : Store) (log : RunLog)
  | crashed (s : Store) (err : String)
  deriving DecidableEq

/-- The task store as the iteration leaves it. -/
def IterOutcome.store : IterOutcome → Store
  | .noTask s => s
  | .completed s _ => s
  | .crashed s _ => s

/-- The fix prompts the iteration sent to codex, in order. -/
def IterOutcome.sentFixPrompts : IterOutcome → List String
  | .completed _ log => log.fixPrompts
  | _ => []

/-- How many times the iteration invoked the build script. -/
def IterOutcome.buildCalls : IterOutcome → Nat
  | .completed _ log => log.builds
  | _ => 0

/-- Whether the long-lived loop survives this iteration (reaches `continue`
or falls through to the next `while True` round) rather than dying on an
uncaught exception. -/
def IterOutcome.loopContinues : IterOutcome → Bool
  | .crashed _ _ => false
  | _ => true

/-- The body of `for attempt in range(5)` (`ai_worker.py`, lines 164-180),
with `fuel` the number of remaining attempts and `attempt` the index of the
current one.  Returns `build_success`, the fix prompts sent from this point
on, and the number of build invocations made from this point on. -/
def buildFixAux (env : Env) (attempt fuel : Nat) : Bool × List String × Nat :=
  match fuel with
  | 0 => (false, [], 0)
  | fuel + 1 =>
    let r := env.build attempt
    if r.1 = 0 then
      (true, [], 1)
    else
      let p := fix_prompt r.2
      if env.fixOk attempt then
        let rest := buildFixAux env (attempt + 1) fuel
        (rest.1, p :: rest.2.1, rest.2.2 + 1)
      else
        (false, [p], 1)

/-- The full build-and-fix retry loop: at most 5 attempts, starting at
attempt index 0. -/
def build_fix_loop (env : Env) : Bool × List String × Nat :=
  buildFixAux env 0 5

/-- Steps 2-5 of one iteration of `main_loop`, entered once
`get_next_task_file` has returned `name`: move the task to `in_progress`,
read it, run the implementation call, run the build-and-fix loop, and move
the task to its terminal directory. -/
def processTask (env : Env) (s : Store) (name : String) : IterOutcome :=
  let m1 := move_task name s.pending s.in_progress
  let s1 : Store := { s with pending := m1.1, in_progress := m1.2 }
  match env.readTask name with
  | .error e => .crashed s1 e
  | .ok _content =>
    if env.implOk then
      let r := build_fix_loop env
      if r.1 then
        let m2 := move_task name s1.in_progress s1.done
        .completed { s1 with in_progress := m2.1, done := m2.2 } ⟨r.2.1, r.2.2⟩
      else
        let m2 := move_task name s1.in_progress s1.failed
        .completed { s1 with in_progress := m2.1, failed := m2.2 } ⟨r.2.1, r.2.2⟩
    else
      let m2 := move_task name s1.in_progress s1.failed
      .completed { s1 with in_progress := m2.1, failed := m2.2 } ⟨[], 0⟩

/-- One iteration of the unbounded `while True` loop of `main_loop`
(`ai_worker.py`, lines 129-189). -/
def loopIter (env : Env) (s : Store) : IterOutcome :=
  match get_next_task_file s.pending with
  | none => .noTask s
  | some name => processTask env s name

/-- Number of occurrences of filename `n` across the whole task store. -/
def countAll (s : Store) (n : String) : Nat :=
  s.pending.count n + s.in_progress.count n + s.done.count n + s.failed.count n

/-- The langgraph state of `qa_agent.py` (lines 9-11). -/
structure QAState where
  qa_text : String
  report : String
  deriving DecidableEq

/-- Model of `read_qa` (`qa_agent.py`, lines 15-23); `checklist` is the
content of `release_qa.txt` when that file exists, else `none`. -/
def read_qa (checklist : Option String) (st : QAState) : QAState :=
  match checklist with
  | none => { st with qa_text := "Q&A file missing." }
  | some text => { st with qa_text := text }

/-- The fixed text of the QA analysis prompt preceding the embedded answers
(`qa_agent.py`, lines 29-46). -/
def qaPromptHeader : String :=
  "\nYou are a senior Android production readiness QA engineer for an offline music player.\n\nAnalyze the developer's release checklist answers below.\n\nGoal:\n- Detect REAL production risks only\n- Identify crash/playback/billing risks\n- Predict likely user complaints\n- Decide if app is SAFE TO SHIP or FIX REQUIRED\n\nRules:\n- Any NO in critical areas = RISK\n- UNSURE = WARNING\n- Focus on playback reliability, crashes, billing, background survival\n- Ignore minor polish\n\nDeveloper Answers:\n"

/-- The fixed text of the QA analysis prompt following the embedded answers
(`qa_agent.py`, lines 49-65). -/
def qaPromptFooter : String :=
  "\n\nOutput in structured format:\n\nCRASH & STABILITY → SAFE / RISK\nPLAYBACK RELIABILITY → SAFE / RISK\nBACKGROUND SERVICE → SAFE / RISK\nNOTIFICATION & CONTROLS → SAFE / RISK\nLIBRARY & STORAGE → SAFE / RISK\nPERFORMANCE → OK / RISK\nBILLING → SAFE / RISK\nUSER COMPLAINT RISK → LOW / MEDIUM / HIGH\n\nFINAL DECISION → SAFE TO SHIP / FIX BEFORE RELEASE\n\nAlso list:\n- Top 3 risks (if any)\n- What MUST be fixed before release\n"

/-- The analysis prompt of `analyze_qa` with the checklist text interpolated
(`qa_agent.py`, lines 29-65). -/
def qa_prompt (qa_text : String) : String :=
  qaPromptHeader ++ qa_text ++ qaPromptFooter

/-- Model of `analyze_qa` (`qa_agent.py`, lines 27-73), with the OpenAI call
abstracted as the oracle `llm` from prompt text to returned text. -/
def analyze_qa (llm : String → String) (st : QAState) : QAState :=
  { st with report := llm (qa_prompt st.qa_text) }

/-- The filesystem effect of `save_report` (`qa_agent.py`, lines 77-83):
which directory is created (with `exist_ok`) and which file is written with
which contents. -/
structure FileWrite where
  dirCreated : String
  path : String
  contents : String
  deriving DecidableEq

/-- Model of `save_report` (`qa_agent.py`, lines 77-83). -/
def save_report (st : QAState) : QAState × FileWrite :=
  (st, ⟨"qa_output", "qa_output/qa_decision.txt", st.report⟩)

/-- The compiled langgraph pipeline `read_qa` then `analyze_qa` then
`save_report`, invoked on the initial state with empty fields
(`qa_agent.py`, lines 87-103). -/
def qa_app (checklist : Option String) (llm : String → String) : QAState × FileWrite :=
  save_report (analyze_qa llm (read_qa checklist ⟨"", ""⟩))

/-! Helper lemmas about the sorted directory listing and task selection. -/

lemma strLeB_iff {a b : String} : strLeB a b = true ↔ a ≤ b := by
  have h : b < a ↔ b.data < a.data := String.lt_iff_toList_lt
  simp only [strLeB, Bool.not_eq_true', decide_eq_false_iff_not, ← h, not_lt]

lemma strLeB_total (a b : String) : strLeB a b || strLeB b a := by
  rcases le_total a b with h | h
  · simp [strLeB_iff.mpr h]
  · simp [strLeB_iff.mpr h]

lemma strLeB_trans (a b c : String) : strLeB a b → strLeB b c → strLeB a c := by
  intro h1 h2
  exact strLeB_iff.mpr (le_trans (strLeB_iff.mp h1) (strLeB_iff.mp h2))

lemma sortedMdFiles_perm (dir : List String) :
    (sortedMdFiles dir).Perm (dir.filter isMdFile) :=
  List.mergeSort_perm _ _

lemma sortedMdFiles_pairwise (dir : List String) :
    (sortedMdFiles dir).Pairwise (fun a b => strLeB a b) :=
  List.sorted_mergeSort strLeB_trans strLeB_total _

lemma get_next_none_iff (pending : List String) :
    get_next_task_file pending = none ↔ pending.filter isMdFile = [] := by
  unfold get_next_task_file
  rcases h : sortedMdFiles pending with _ | ⟨f, rest⟩
  · simp only [true_iff]
    have := sortedMdFiles_perm pending
    rw [h] at this
    exact (this.nil_eq).symm
  · simp only [reduceCtorEq, false_iff]
    intro hfil
    have := sortedMdFiles_perm pending
    rw [h, hfil] at this
    exact absurd this.eq_nil (by simp)

lemma get_next_mem {pending : List String} {f : String}
    (h : get_next_task_file pending = some f) : f ∈ pending.filter isMdFile := by
  unfold get_next_task_file at h
  rcases hs : sortedMdFiles pending with _ | ⟨g, rest⟩ <;> rw [hs] at h
  · simp at h
  · have : f ∈ sortedMdFiles pending := by simp_all
    exact (sortedMdFiles_perm pending).mem_iff.mp this

lemma get_next_min {pending : List String} {f : String}
    (h : get_next_task_file pending = some f) :
    ∀ g ∈ pending.filter isMdFile, f ≤ g := by
  intro g hg
  unfold get_next_task_file at h
  rcases hs : sortedMdFiles pending with _ | ⟨x, rest⟩ <;> rw [hs] at h
  · simp at h
  · have hfx : f = x := by simp_all
    subst hfx
    have hmem : g ∈ sortedMdFiles pending :=
      (sortedMdFiles_perm pending).mem_iff.mpr hg
    rw [hs] at hmem
    rcases List.mem_cons.mp hmem with rfl | hrest
    · exact le_refl g
    · have hp := sortedMdFiles_pairwise pending
      rw [hs] at hp
      exact strLeB_iff.mp ((List.pairwise_cons.mp hp).1 g hrest)

lemma get_next_mem_pending {pending : List String} {f : String}
    (h : get_next_task_file pending = some f) : f ∈ pending :=
  (List.mem_filter.mp (get_next_mem h)).1

lemma get_next_isMd {pending : List String} {f : String}
    (h : get_next_task_file pending = some f) : isMdFile f = true :=
  (List.mem_filter.mp (get_next_mem h)).2

lemma get_next_of_sorted (dir : List String)
    (h : (dir.filter isMdFile).Pairwise (fun a b => strLeB a b)) :
    get_next_task_file dir = (dir.filter isMdFile).head? := by
  unfold get_next_task_file sortedMdFiles
  rw [List.mergeSort_of_sorted h]
  cases dir.filter isMdFile <;> simp

lemma loopIter_of_none {env : Env} {s : Store}
    (h : get_next_task_file s.pending = none) : loopIter env s = .noTask s := by
  unfold loopIter
  rw [h]

lemma loopIter_of_some {env : Env} {s : Store} {name : String}
    (h : get_next_task_file s.pending = some name) :
    loopIter env s = processTask env s name := by
  unfold loopIter
  rw [h]

/-! Normal forms of `processTask` in the four scenarios an iteration can take. -/

lemma processTask_read_error {env : Env} {s : Store} {name e : String}
    (h : env.readTask name = .error e) :
    processTask env s name =
      .crashed ⟨s.pending.erase name, s.in_progress ++ [name], s.done, s.failed⟩ e := by
  simp only [processTask, move_task, h]

lemma processTask_impl_fail {env : Env} {s : Store} {name c : String}
    (h : env.readTask name = .ok c) (hi : env.implOk = false) :
    processTask env s name =
      .completed ⟨s.pending.erase name, (s.in_progress ++ [name]).erase name,
        s.done, s.failed ++ [name]⟩ ⟨[], 0⟩ := by
  simp only [processTask, move_task, h, hi, Bool.false_eq_true, if_false]

lemma processTask_build_ok {env : Env} {s : Store} {name c : String}
    (h : env.readTask name = .ok c) (hi : env.implOk = true)
    (hb : (build_fix_loop env).1 = true) :
    processTask env s name =
      .completed ⟨s.pending.erase name, (s.in_progress ++ [name]).erase name,
        s.done ++ [name], s.failed⟩
        ⟨(build_fix_loop env).2.1, (build_fix_loop env).2.2⟩ := by
  simp only [processTask, move_task, h, hi, hb, if_true]

lemma processTask_build_fail {env : Env} {s : Store} {name c : String}
    (h : env.readTask name = .ok c) (hi : env.implOk = true)
    (hb : (build_fix_loop env).1 = false) :
    processTask env s name =
      .completed ⟨s.pending.erase name, (s.in_progress ++ [name]).erase name,
        s.done, s.failed ++ [name]⟩
        ⟨(build_fix_loop env).2.1, (build_fix_loop env).2.2⟩ := by
  simp only [processTask, move_task, h, hi, hb, Bool.false_eq_true, if_false, if_true]

/-! Normal forms of the build-and-fix retry loop in the scenarios of the
claims: immediate success, four failures then success, five failures, and a
fix call failing part-way. -/

lemma build_fix_first_ok {env : Env} (h : (env.build 0).1 = 0) :
    build_fix_loop env = (true, [], 1) := by
  simp [build_fix_loop, buildFixAux, h]

lemma build_fix_fail4_ok5 {env : Env}
    (h0 : (env.build 0).1 ≠ 0) (h1 : (env.build 1).1 ≠ 0)
    (h2 : (env.build 2).1 ≠ 0) (h3 : (env.build 3).1 ≠ 0)
    (h4 : (env.build 4).1 = 0)
    (f0 : env.fixOk 0 = true) (f1 : env.fixOk 1 = true)
    (f2 : env.fixOk 2 = true) (f3 : env.fixOk 3 = true) :
    build_fix_loop env =
      (true, [fix_prompt (env.build 0).2, fix_prompt (env.build 1).2,
        fix_prompt (env.build 2).2, fix_prompt (env.build 3).2], 5) := by
  simp [build_fix_loop, buildFixAux, h0, h1, h2, h3, h4, f0, f1, f2, f3]

lemma build_fix_all_fail {env : Env}
    (h0 : (env.build 0).1 ≠ 0) (h1 : (env.build 1).1 ≠ 0)
    (h2 : (env.build 2).1 ≠ 0) (h3 : (env.build 3).1 ≠ 0)
    (h4 : (env.build 4).1 ≠ 0)
    (f0 : env.fixOk 0 = true) (f1 : env.fixOk 1 = true)
    (f2 : env.fixOk 2 = true) (f3 : env.fixOk 3 = true)
    (f4 : env.fixOk 4 = true) :
    build_fix_loop env =
      (false, [fix_prompt (env.build 0).2, fix_prompt (env.build 1).2,
        fix_prompt (env.build 2).2, fix_prompt (env.build 3).2,
        fix_prompt (env.build 4).2], 5) := by
  simp [build_fix_loop, buildFixAux, h0, h1, h2, h3, h4, f0, f1, f2, f3, f4]

/-- C4: for every task whose implementation agent call succeeds and whose
first build attempt returns exit code 0, the retry loop exits immediately
with only one build invocation (the remaining four attempts unconsumed), no
fix prompt is sent, and the task is moved to done. -/
theorem C4_first_build_success (env : Env) (s : Store) (name : String)
    (hn : get_next_task_file s.pending = some name)
    (hread : ∃ c, env.readTask name = Except.ok c)
    (himpl : env.implOk = true)
    (hb : (env.build 0).1 = 0) :
    (loopIter env s).store.done = s.done ++ [name] ∧
    (loopIter env s).store.failed = s.failed ∧
    (loopIter env s).sentFixPrompts = [] ∧
    (loopIter env s).buildCalls = 1 ∧
    (loopIter env s).loopContinues = true := by
  obtain ⟨c, hc⟩ := hread
  rw [loopIter_of_some hn,
    processTask_build_ok hc himpl (by rw [build_fix_first_ok hb]),
    build_fix_first_ok hb]
  simp [IterOutcome.store, IterOutcome.sentFixPrompts, IterOutcome.buildCalls,
    IterOutcome.loopContinues]

/-- Witness for C4: a concrete store with one pending task and an environment
whose first build attempt exits 0. -/
theorem C4_first_build_success_witness :
    get_next_task_file (["t.md"] : List String) = some "t.md" ∧
    ((⟨fun _ => .ok "do it", true, fun _ => (0, "log"), fun _ => true⟩ : Env).build 0).1 = 0 ∧
    (loopIter ⟨fun _ => .ok "do it", true, fun _ => (0, "log"), fun _ => true⟩
        ⟨["t.md"], [], [], []⟩).store.done = [] ++ ["t.md"] := by
  have hn : get_next_task_file (["t.md"] : List String) = some "t.md" := by
    rw [get_next_of_sorted _ (by decide)]
    rfl
  exact ⟨hn, rfl,
    (C4_first_build_success _ ⟨["t.md"], [], [], []⟩ _ hn ⟨"do it", rfl⟩ rfl rfl).1⟩

/-- C1: for a task whose implementation call succeeds and whose fix calls all
succeed, exactly one fix prompt is sent per failing build attempt: if
attempts 1-4 fail and attempt 5 succeeds, the task is moved to done with
exactly 4 fix prompts sent; if all 5 attempts fail, the task is moved to
failed with exactly 5 fix prompts sent and exactly 5 build invocations (no
sixth attempt). -/
theorem C1_one_fix_prompt_per_failed_attempt (env : Env) (s : Store) (name : String)
    (hn : get_next_task_file s.pending = some name)
    (hread : ∃ c, env.readTask name = Except.ok c)
    (himpl : env.implOk = true)
    (hfix : ∀ k, env.fixOk k = true) :
    ((∀ k < 4, (env.build k).1 ≠ 0) → (env.build 4).1 = 0 →
      (loopIter env s).store.done = s.done ++ [name] ∧
      (loopIter env s).store.failed = s.failed ∧
      (loopIter env s).sentFixPrompts.length = 4 ∧
      (loopIter env s).buildCalls = 5) ∧
    ((∀ k < 5, (env.build k).1 ≠ 0) →
      (loopIter env s).store.failed = s.failed ++ [name] ∧
      (loopIter env s).store.done = s.done ∧
      (loopIter env s).sentFixPrompts.length = 5 ∧
      (loopIter env s).buildCalls = 5) := by
  obtain ⟨c, hc⟩ := hread
  constructor
  · intro hfail h4
    have hbf := build_fix_fail4_ok5 (hfail 0 (by omega)) (hfail 1 (by omega))
      (hfail 2 (by omega)) (hfail 3 (by omega)) h4
      (hfix 0) (hfix 1) (hfix 2) (hfix 3)
    rw [loopIter_of_some hn, processTask_build_ok hc himpl (by rw [hbf]), hbf]
    simp [IterOutcome.store, IterOutcome.sentFixPrompts, IterOutcome.buildCalls]
  · intro hfail
    have hbf := build_fix_all_fail (hfail 0 (by omega)) (hfail 1 (by omega))
      (hfail 2 (by omega)) (hfail 3 (by omega)) (hfail 4 (by omega))
      (hfix 0) (hfix 1) (hfix 2) (hfix 3) (hfix 4)
    rw [loopIter_of_some hn, processTask_build_fail hc himpl (by rw [hbf]), hbf]
    simp [IterOutcome.store, IterOutcome.sentFixPrompts, IterOutcome.buildCalls]

/-- Witness for C1: two concrete environments over a one-task store, one
whose build fails exactly on attempts 1-4, one whose build always fails. -/
theorem C1_one_fix_prompt_per_failed_attempt_witness :
    get_next_task_file (["t.md"] : List String) = some "t.md" ∧
    (∀ k < 4, ((fun k => if k < 4 then (1, "boom") else (0, "fine")) k : Nat × String).1 ≠ 0) ∧
    (loopIter ⟨fun _ => .ok "do it", true,
        fun k => if k < 4 then (1, "boom") else (0, "fine"), fun _ => true⟩
      ⟨["t.md"], [], [], []⟩).sentFixPrompts.length = 4 ∧
    (∀ k < 5, ((fun _ => ((1 : Nat), "boom")) k : Nat × String).1 ≠ 0) ∧
    (loopIter ⟨fun _ => .ok "do it", true, fun _ => (1, "boom"), fun _ => true⟩
      ⟨["t.md"], [], [], []⟩).sentFixPrompts.length = 5 := by
  have hn : get_next_task_file (["t.md"] : List String) = some "t.md" := by
    rw [get_next_of_sorted _ (by decide)]
    rfl
  refine ⟨hn, by decide, ?_, by decide, ?_⟩
  · exact ((C1_one_fix_prompt_per_failed_attempt _ ⟨["t.md"], [], [], []⟩ _ hn
      ⟨"do it", rfl⟩ rfl (fun _ => rfl)).1 (by decide) (by decide)).2.2.1
  · exact ((C1_one_fix_prompt_per_failed_attempt _ ⟨["t.md"], [], [], []⟩ _ hn
      ⟨"do it", rfl⟩ rfl (fun _ => rfl)).2 (by decide)).2.2.1

/-- C3: for every task picked up from pending, if the implementation agent
call returns failure, the task is moved directly to failed, no build attempt
is invoked, no fix prompt is sent, the loop continues, and the task is
afterwards absent from pending, in_progress and done. -/
theorem C3_impl_failure_goes_failed (env : Env) (s : Store) (name : String)
    (hn : get_next_task_file s.pending = some name)
    (hread : ∃ c, env.readTask name = Except.ok c)
    (himpl : env.implOk = false)
    (hp : s.pending.count name = 1)
    (hip : name ∉ s.in_progress)
    (hd : name ∉ s.done) :
    (loopIter env s).store.failed = s.failed ++ [name] ∧
    (loopIter env s).buildCalls = 0 ∧
    (loopIter env s).sentFixPrompts = [] ∧
    name ∉ (loopIter env s).store.pending ∧
    name ∉ (loopIter env s).store.in_progress ∧
    name ∉ (loopIter env s).store.done ∧
    (loopIter env s).loopContinues = true := by
  obtain ⟨c, hc⟩ := hread
  rw [loopIter_of_some hn, processTask_impl_fail hc himpl]
  refine ⟨rfl, rfl, rfl, ?_, ?_, hd, rfl⟩
  · have h1 : (s.pending.erase name).count name = s.pending.count name - 1 :=
      List.count_erase_self name s.pending
    rw [hp] at h1
    exact List.count_eq_zero.mp h1
  · rw [List.erase_append_right _ hip]
    simpa using hip

/-- Witness for C3: a concrete one-task store and an environment whose
implementation call fails. -/
theorem C3_impl_failure_goes_failed_witness :
    get_next_task_file (["t.md"] : List String) = some "t.md" ∧
    (loopIter ⟨fun _ => .ok "do it", false, fun _ => (1, "boom"), fun _ => true⟩
        ⟨["t.md"], [], [], []⟩).store.failed = [] ++ ["t.md"] ∧
    "t.md" ∉ (loopIter ⟨fun _ => .ok "do it", false, fun _ => (1, "boom"), fun _ => true⟩
        ⟨["t.md"], [], [], []⟩).store.pending := by
  have hn : get_next_task_file (["t.md"] : List String) = some "t.md" := by
    rw [get_next_of_sorted _ (by decide)]
    rfl
  have h := C3_impl_failure_goes_failed
    ⟨fun _ => .ok "do it", false, fun _ => (1, "boom"), fun _ => true⟩
    ⟨["t.md"], [], [], []⟩ "t.md" hn
    ⟨"do it", rfl⟩ rfl (by decide) (by decide) (by decide)
  exact ⟨hn, h.1, h.2.2.2.1⟩

lemma build_fix_fix_fails {env : Env} {j : Nat} (hj : j < 5)
    (hb : ∀ i ≤ j, (env.build i).1 ≠ 0)
    (hf : ∀ i < j, env.fixOk i = true)
    (hfj : env.fixOk j = false) :
    (build_fix_loop env).1 = false ∧
    (build_fix_loop env).2.1.length = j + 1 ∧
    (build_fix_loop env).2.2 = j + 1 := by
  interval_cases j
  · simp [build_fix_loop, buildFixAux, hb 0 (by omega), hfj]
  · simp [build_fix_loop, buildFixAux, hb 0 (by omega), hb 1 (by omega),
      hf 0 (by omega), hfj]
  · simp [build_fix_loop, buildFixAux, hb 0 (by omega), hb 1 (by omega),
      hb 2 (by omega), hf 0 (by omega), hf 1 (by omega), hfj]
  · simp [build_fix_loop, buildFixAux, hb 0 (by omega), hb 1 (by omega),
      hb 2 (by omega), hb 3 (by omega), hf 0 (by omega), hf 1 (by omega),
      hf 2 (by omega), hfj]
  · simp [build_fix_loop, buildFixAux, hb 0 (by omega), hb 1 (by omega),
      hb 2 (by omega), hb 3 (by omega), hb 4 (by omega), hf 0 (by omega),
      hf 1 (by omega), hf 2 (by omega), hf 3 (by omega), hfj]

/-- C5: if the fix agent call fails on build attempt k (1-indexed, any k from
1 to 5, all earlier attempts having failed their builds and succeeded their
fixes), the retry loop is abandoned at once: exactly k build invocations and
exactly k fix prompts in total, and the task is moved to failed, the same
outcome as exhausting all five attempts. -/
theorem C5_fix_call_failure_abandons (env : Env) (s : Store) (name : String) (k : Nat)
    (hn : get_next_task_file s.pending = some name)
    (hread : ∃ c, env.readTask name = Except.ok c)
    (himpl : env.implOk = true)
    (hk1 : 1 ≤ k) (hk5 : k ≤ 5)
    (hb : ∀ j < k, (env.build j).1 ≠ 0)
    (hf : ∀ j, j + 1 < k → env.fixOk j = true)
    (hfk : env.fixOk (k - 1) = false) :
    (loopIter env s).store.failed = s.failed ++ [name] ∧
    (loopIter env s).store.done = s.done ∧
    (loopIter env s).sentFixPrompts.length = k ∧
    (loopIter env s).buildCalls = k := by
  obtain ⟨c, hc⟩ := hread
  have hbf := build_fix_fix_fails (j := k - 1) (by omega)
    (fun i hi => hb i (by omega)) (fun i hi => hf i (by omega)) hfk
  rw [loopIter_of_some hn, processTask_build_fail hc himpl hbf.1]
  refine ⟨rfl, rfl, ?_, ?_⟩
  · simp only [IterOutcome.sentFixPrompts]
    rw [hbf.2.1]
    omega
  · simp only [IterOutcome.buildCalls]
    rw [hbf.2.2]
    omega

/-- Witness for C5: all builds fail and the fix call on attempt 2 fails, so
the loop stops after 2 builds and 2 fix prompts with the task in failed. -/
theorem C5_fix_call_failure_abandons_witness :
    get_next_task_file (["t.md"] : List String) = some "t.md" ∧
    (loopIter ⟨fun _ => .ok "do it", true, fun _ => (1, "boom"), fun j => j == 0⟩
        ⟨["t.md"], [], [], []⟩).store.failed = [] ++ ["t.md"] ∧
    (loopIter ⟨fun _ => .ok "do it", true, fun _ => (1, "boom"), fun j => j == 0⟩
        ⟨["t.md"], [], [], []⟩).sentFixPrompts.length = 2 := by
  have hn : get_next_task_file (["t.md"] : List String) = some "t.md" := by
    rw [get_next_of_sorted _ (by decide)]
    rfl
  have h := C5_fix_call_failure_abandons
    ⟨fun _ => .ok "do it", true, fun _ => (1, "boom"), fun j => j == 0⟩
    ⟨["t.md"], [], [], []⟩ "t.md" 2 hn
    ⟨"do it", rfl⟩ rfl (by omega) (by omega)
    (fun j hj => by simp)
    (fun j hj => by
      have hj0 : j = 0 := by omega
      subst hj0
      rfl)
    rfl
  exact ⟨hn, h.1, h.2.2.1⟩

set_option maxRecDepth 10000 in
/-- C6: the fix prompt embeds exactly `trimmed_log` of the build output
between the fixed template parts; that embedded text is at most 1000
characters, is a suffix of the original output, equals the whole output when
the output has at most 1000 characters, and has exactly 1000 characters when
the output is longer. -/
theorem C6_fix_prompt_truncation (log : String) :
    (fix_prompt log).data =
      fixPromptHeader.data ++ (trimmed_log log).data ++ "\n".data ∧
    (trimmed_log log).length ≤ 1000 ∧
    (trimmed_log log).data <:+ log.data ∧
    (log.length ≤ 1000 → trimmed_log log = log) ∧
    (1000 < log.length → (trimmed_log log).length = 1000) := by
  refine ⟨?_, ?_, ?_, ?_, ?_⟩
  · rfl
  · show (log.data.drop (log.data.length - 1000)).length ≤ 1000
    rw [List.length_drop]
    omega
  · exact List.drop_suffix _ _
  · intro h
    have hlen : log.length = log.data.length := rfl
    have h0 : log.data.length - 1000 = 0 := by omega
    show String.mk (log.data.drop (log.data.length - 1000)) = log
    rw [h0, List.drop_zero]
  · intro h
    have hlen : log.length = log.data.length := rfl
    show (log.data.drop (log.data.length - 1000)).length = 1000
    rw [List.length_drop]
    omega

set_option maxRecDepth 10000 in
/-- Witness for C6: a 3-character log is kept whole; a 1001-character log is
cut to its last 1000 characters. -/
theorem C6_fix_prompt_truncation_witness :
    ("err" : String).length ≤ 1000 ∧ trimmed_log "err" = "err" ∧
    1000 < (String.mk (List.replicate 1001 'x')).length ∧
    (trimmed_log (String.mk (List.replicate 1001 'x'))).length = 1000 := by
  have h1 : ("err" : String).length ≤ 1000 := by
    show "err".data.length ≤ 1000
    simp
  have h2 : (1000 : Nat) < (String.mk (List.replicate 1001 'x')).length := by
    show 1000 < (List.replicate 1001 'x').length
    rw [List.length_replicate]
    omega
  exact ⟨h1, (C6_fix_prompt_truncation "err").2.2.2.1 h1, h2,
    (C6_fix_prompt_truncation _).2.2.2.2 h2⟩

/-! Counting lemmas: a move never renames a file and never changes how many
copies of any filename exist across the store. -/

lemma count_erase_append_self (l : List String) (name n : String) :
    ((l ++ [name]).erase name).count n = l.count n := by
  rw [List.count_erase, List.count_append, List.count_singleton]
  rcases eq_or_ne n name with rfl | hne
  · simp
  · simp [hne, Ne.symm hne]

lemma count_erase_mem (l : List String) (name n : String) (h : name ∈ l) :
    (l.erase name).count n + (if n = name then 1 else 0) = l.count n := by
  rw [List.count_erase]
  rcases eq_or_ne n name with rfl | hne
  · have h1 : 0 < l.count n := List.count_pos_iff.mpr h
    simp
    omega
  · simp [hne, Ne.symm hne]

lemma move_task_count (name : String) (src tgt : List String) (h : name ∈ src)
    (n : String) :
    (move_task name src tgt).1.count n + (move_task name src tgt).2.count n
      = src.count n + tgt.count n := by
  simp only [move_task, List.count_append, List.count_singleton]
  have h1 := count_erase_mem src name n h
  rcases eq_or_ne n name with rfl | hne
  · simp at h1 ⊢
    try omega
  · simp [hne, Ne.symm hne] at h1 ⊢
    try omega

lemma countAll_processTask (env : Env) (s : Store) (name : String)
    (hmem : name ∈ s.pending) (n : String) :
    countAll ((processTask env s name).store) n = countAll s n := by
  have hp := count_erase_mem s.pending name n hmem
  cases henv : env.readTask name with
  | error e =>
    rw [processTask_read_error henv]
    simp only [IterOutcome.store, countAll, List.count_append, List.count_singleton]
    rcases eq_or_ne n name with rfl | hne
    · simp at hp ⊢
      try omega
    · simp [hne, Ne.symm hne] at hp ⊢
      try omega
  | ok c =>
    cases himpl : env.implOk with
    | false =>
      rw [processTask_impl_fail henv himpl]
      simp only [IterOutcome.store, countAll, List.count_append,
        List.count_singleton, count_erase_append_self]
      rcases eq_or_ne n name with rfl | hne
      · simp at hp ⊢
        try omega
      · simp [hne, Ne.symm hne] at hp ⊢
        try omega
    | true =>
      cases hbf : (build_fix_loop env).1 with
      | true =>
        rw [processTask_build_ok henv himpl hbf]
        simp only [IterOutcome.store, countAll, List.count_append,
          List.count_singleton, count_erase_append_self]
        rcases eq_or_ne n name with rfl | hne
        · simp at hp ⊢
          try omega
        · simp [hne, Ne.symm hne] at hp ⊢
          try omega
      | false =>
        rw [processTask_build_fail henv himpl hbf]
        simp only [IterOutcome.store, countAll, List.count_append,
          List.count_singleton, count_erase_append_self]
        rcases eq_or_ne n name with rfl | hne
        · simp at hp ⊢
          try omega
        · simp [hne, Ne.symm hne] at hp ⊢
          try omega

/-- C8: a move puts the file in the destination under its own name and, for
every filename, the total number of occurrences across source and target
listings is unchanged; consequently one whole worker iteration preserves the
occurrence count of every filename across the four directories, so a task
present in exactly one directory is still present in exactly one directory
after every transition. -/
theorem C8_moves_preserve_name_and_uniqueness :
    (∀ (name : String) (src tgt : List String), name ∈ src →
      ∀ n, (move_task name src tgt).1.count n + (move_task name src tgt).2.count n
        = src.count n + tgt.count n) ∧
    (∀ (name : String) (src tgt : List String), name ∈ (move_task name src tgt).2) ∧
    (∀ (env : Env) (s : Store) (n : String),
      countAll ((loopIter env s).store) n = countAll s n) := by
  refine ⟨move_task_count, ?_, ?_⟩
  · intro name src tgt
    simp [move_task]
  · intro env s n
    cases hn : get_next_task_file s.pending with
    | none =>
      rw [loopIter_of_none hn]
      rfl
    | some name =>
      rw [loopIter_of_some hn]
      exact countAll_processTask env s name (get_next_mem_pending hn) n

/-- Witness for C8: moving the only copy of a file between two concrete
listings keeps the total count of every name, shown at one sample name. -/
theorem C8_moves_preserve_name_and_uniqueness_witness :
    "t.md" ∈ (["t.md", "u.md"] : List String) ∧
    (move_task "t.md" ["t.md", "u.md"] ["v.md"]).1.count "t.md"
        + (move_task "t.md" ["t.md", "u.md"] ["v.md"]).2.count "t.md"
      = (["t.md", "u.md"] : List String).count "t.md"
          + (["v.md"] : List String).count "t.md" := by
  refine ⟨by decide, ?_⟩
  exact C8_moves_preserve_name_and_uniqueness.1 "t.md" ["t.md", "u.md"] ["v.md"]
    (by decide) "t.md"

/-- C10: get_next_task_file considers only filenames with the .md suffix:
whenever no file of the pending directory ends in .md (even if the directory
is not empty), it reports no pending task exactly as for an empty directory,
and the iteration sleeps leaving the store untouched, with no build call and
no fix prompt, so such files are never picked up, moved or processed. -/
theorem C10_non_md_files_never_processed (env : Env) (s : Store)
    (h : ∀ f ∈ s.pending, isMdFile f = false) :
    get_next_task_file s.pending = none ∧
    loopIter env s = .noTask s ∧
    (loopIter env s).store = s ∧
    (loopIter env s).buildCalls = 0 ∧
    (loopIter env s).sentFixPrompts = [] := by
  have hfil : s.pending.filter isMdFile = [] := by
    rw [List.filter_eq_nil_iff]
    intro a ha
    simp [h a ha]
  have hn : get_next_task_file s.pending = none := (get_next_none_iff _).mpr hfil
  rw [loopIter_of_none hn]
  exact ⟨hn, rfl, rfl, rfl, rfl⟩

/-- Witness for C10: a pending directory holding notes.txt and readme only. -/
theorem C10_non_md_files_never_processed_witness :
    (∀ f ∈ (["notes.txt", "readme"] : List String), isMdFile f = false) ∧
    get_next_task_file ["notes.txt", "readme"] = none ∧
    loopIter ⟨fun _ => .ok "", true, fun _ => (0, ""), fun _ => true⟩
        ⟨["notes.txt", "readme"], [], [], []⟩
      = .noTask ⟨["notes.txt", "readme"], [], [], []⟩ := by
  have h : ∀ f ∈ (["notes.txt", "readme"] : List String), isMdFile f = false := by
    decide
  have hc := C10_non_md_files_never_processed
    ⟨fun _ => .ok "", true, fun _ => (0, ""), fun _ => true⟩
    ⟨["notes.txt", "readme"], [], [], []⟩ h
  exact ⟨h, hc.1, hc.2.1⟩

/-- Counterexample to C7 as stated: a pending directory containing only
notes.txt is not empty, yet next_pending reports no task, so "returns none
exactly when the pending directory is empty" fails. -/
theorem C7_cex_none_on_nonempty_directory :
    get_next_task_file ["notes.txt"] = none ∧
    (["notes.txt"] : List String) ≠ [] := by
  exact ⟨(get_next_none_iff _).mpr (by decide), by decide⟩

/-- C7 (amended): next_pending returns the lexicographically-first .md
filename of the pending directory when one exists (FIFO-by-name ordering),
and returns none exactly when the pending directory contains no .md file (in
particular when it is empty); on none the iteration only sleeps rather than
raising an error. -/
theorem C7_next_pending_amended (env : Env) (s : Store) :
    (get_next_task_file s.pending = none ↔ s.pending.filter isMdFile = []) ∧
    (∀ f, get_next_task_file s.pending = some f →
      f ∈ s.pending ∧ isMdFile f = true ∧
      ∀ g ∈ s.pending, isMdFile g = true → f ≤ g) ∧
    (get_next_task_file s.pending = none → loopIter env s = .noTask s) := by
  refine ⟨get_next_none_iff _, ?_, fun h => loopIter_of_none h⟩
  intro f hf
  refine ⟨get_next_mem_pending hf, get_next_isMd hf, ?_⟩
  intro g hg hmd
  exact get_next_min hf g (List.mem_filter.mpr ⟨hg, by simpa using hmd⟩)

/-- Witness for C7 (amended): on a sorted two-task directory the first task
is selected and is minimal; on a directory with no .md file the result is
none and the loop sleeps. -/
theorem C7_next_pending_amended_witness :
    get_next_task_file ["a.md", "b.md"] = some "a.md" ∧
    ("a.md" ∈ (["a.md", "b.md"] : List String) ∧ isMdFile "a.md" = true ∧
      ∀ g ∈ (["a.md", "b.md"] : List String), isMdFile g = true → "a.md" ≤ g) ∧
    get_next_task_file ["x.txt"] = none ∧
    loopIter ⟨fun _ => .ok "", true, fun _ => (0, ""), fun _ => true⟩
        ⟨["x.txt"], [], [], []⟩
      = .noTask ⟨["x.txt"], [], [], []⟩ := by
  have hsome : get_next_task_file ["a.md", "b.md"] = some "a.md" := by
    rw [get_next_of_sorted _ (by decide)]
    rfl
  have hnone : get_next_task_file ["x.txt"] = none :=
    (get_next_none_iff _).mpr (by decide)
  refine ⟨hsome, ?_, hnone, ?_⟩
  · exact (C7_next_pending_amended
      ⟨fun _ => .ok "", true, fun _ => (0, ""), fun _ => true⟩
      ⟨["a.md", "b.md"], [], [], []⟩).2.1 "a.md" hsome
  · exact (C7_next_pending_amended
      ⟨fun _ => .ok "", true, fun _ => (0, ""), fun _ => true⟩
      ⟨["x.txt"], [], [], []⟩).2.2 hnone

/-- Counterexample to C2 as stated: with one pending task whose file read
raises an I/O error, the iteration ends in an uncaught exception: the loop
does not continue, and the task is left in in_progress, not moved to
failed. -/
theorem C2_cex_read_error_crashes_loop :
    (loopIter ⟨fun _ => .error "unreadable", true, fun _ => (0, ""), fun _ => true⟩
        ⟨["t.md"], [], [], []⟩).loopContinues = false ∧
    "t.md" ∉ (loopIter ⟨fun _ => .error "unreadable", true, fun _ => (0, ""), fun _ => true⟩
        ⟨["t.md"], [], [], []⟩).store.failed ∧
    "t.md" ∈ (loopIter ⟨fun _ => .error "unreadable", true, fun _ => (0, ""), fun _ => true⟩
        ⟨["t.md"], [], [], []⟩).store.in_progress := by
  have hn : get_next_task_file (["t.md"] : List String) = some "t.md" := by
    rw [get_next_of_sorted _ (by decide)]
    rfl
  rw [loopIter_of_some hn, processTask_read_error rfl]
  exact ⟨rfl, by decide, by decide⟩

/-- C2 (amended): a per-task agent failure is absorbed: the task is moved to
failed and the loop continues with the next iteration; but an I/O error such
as an unreadable task file is not absorbed: no move to failed happens, the
task is left in in_progress, and the loop exits, since main_loop catches no
exceptions. -/
theorem C2_error_propagation_amended (env : Env) (s : Store) (name : String)
    (hn : get_next_task_file s.pending = some name) :
    (env.implOk = false → (∃ c, env.readTask name = Except.ok c) →
      (loopIter env s).loopContinues = true ∧
      (loopIter env s).store.failed = s.failed ++ [name]) ∧
    (∀ e, env.readTask name = .error e →
      (loopIter env s).loopContinues = false ∧
      (loopIter env s).store.failed = s.failed ∧
      name ∈ (loopIter env s).store.in_progress) := by
  constructor
  · rintro hi ⟨c, hc⟩
    rw [loopIter_of_some hn, processTask_impl_fail hc hi]
    exact ⟨rfl, rfl⟩
  · intro e he
    rw [loopIter_of_some hn, processTask_read_error he]
    exact ⟨rfl, rfl, List.mem_append_right _ (List.mem_singleton_self name)⟩

/-- Witness for C2 (amended): the same one-task store under an environment
with a failing implementation call (absorbed) and under an environment with
an unreadable task file (crash). -/
theorem C2_error_propagation_amended_witness :
    get_next_task_file (["t.md"] : List String) = some "t.md" ∧
    (loopIter ⟨fun _ => .ok "c", false, fun _ => (1, "b"), fun _ => true⟩
        ⟨["t.md"], [], [], []⟩).loopContinues = true ∧
    (loopIter ⟨fun _ => .error "unreadable", false, fun _ => (1, "b"), fun _ => true⟩
        ⟨["t.md"], [], [], []⟩).loopContinues = false := by
  have hn : get_next_task_file (["t.md"] : List String) = some "t.md" := by
    rw [get_next_of_sorted _ (by decide)]
    rfl
  have h1 := (C2_error_propagation_amended
    ⟨fun _ => .ok "c", false, fun _ => (1, "b"), fun _ => true⟩
    ⟨["t.md"], [], [], []⟩ "t.md" hn).1 rfl ⟨"c", rfl⟩
  have h2 := (C2_error_propagation_amended
    ⟨fun _ => .error "unreadable", false, fun _ => (1, "b"), fun _ => true⟩
    ⟨["t.md"], [], [], []⟩ "t.md" hn).2 "unreadable" rfl
  exact ⟨hn, h1.1, h2.1⟩

/-- C9: when the checklist file is missing, the QA pipeline substitutes the
fixed sentinel message as the checklist text instead of failing, sends it
through the fixed analysis prompt, and writes the returned text to the fixed
output path after creating the output directory; the output file is
non-empty whenever the language model's reply is non-empty. -/
theorem C9_missing_checklist_sentinel (llm : String → String)
    (h : llm (qa_prompt "Q&A file missing.") ≠ "") :
    (qa_app none llm).1.qa_text = "Q&A file missing." ∧
    (qa_app none llm).2.dirCreated = "qa_output" ∧
    (qa_app none llm).2.path = "qa_output/qa_decision.txt" ∧
    (qa_app none llm).2.contents = llm (qa_prompt "Q&A file missing.") ∧
    (qa_app none llm).2.contents ≠ "" := by
  exact ⟨rfl, rfl, rfl, rfl, h⟩

/-- Witness for C9: a model that always answers a fixed non-empty verdict. -/
theorem C9_missing_checklist_sentinel_witness :
    (fun _ : String => "SAFE TO SHIP") (qa_prompt "Q&A file missing.") ≠ "" ∧
    (qa_app none (fun _ => "SAFE TO SHIP")).1.qa_text = "Q&A file missing." ∧
    (qa_app none (fun _ => "SAFE TO SHIP")).2.contents ≠ "" := by
  have h : (fun _ : String => "SAFE TO SHIP") (qa_prompt "Q&A file missing.") ≠ "" := by
    decide
  have hc := C9_missing_checklist_sentinel (fun _ => "SAFE TO SHIP") h
  exact ⟨h, hc.1, hc.2.2.2.2⟩
